import Mathlib

/-!
Verification of the Levolor BLE remote-control integration.

The embedding models the two delivery paths of the repository:

* `custom_components/levolor_ble/coordinator.py` — the Home Assistant
  coordinator (`LevolorBLECoordinator.async_send_command`,
  `_send_command_once`, `_find_device_by_name`), modelled as deterministic
  functions over an explicit adapter environment that records every BLE
  adapter call in an event trace.
* `levolor_ble.py` — the standalone client (`LevolorRemote.send_command`),
  modelled the same way.
* `custom_components/levolor_ble/cover.py` — the position dispatch of
  `async_set_cover_position`.

Durations are modelled in milliseconds (the source uses seconds as floats:
0.3 s settle, 1.0 s cooldown, 0.5 s client settle).
-/

namespace Levolor

/-- Blind action codes, from `const.py` (`class Action(IntEnum)`). -/
inductive Action where
  | OPEN
  | CLOSE
  | TILT_OPEN
  | TILT_CLOSE
  | FAVORITE
  | STOP
deriving DecidableEq, Repr

/-- The numeric wire value of each action (`OPEN = 0x01` … `STOP = 0x06`). -/
def Action.code : Action → Nat
  | .OPEN => 0x01
  | .CLOSE => 0x02
  | .TILT_OPEN => 0x03
  | .TILT_CLOSE => 0x04
  | .FAVORITE => 0x05
  | .STOP => 0x06

/-- `const.py`: `LEVOLOR_DEVICE_NAME = "Levolor"`. -/
def LEVOLOR_DEVICE_NAME : String := "Levolor"

/-- `const.py`: `COMMAND_CHAR_UUID`. -/
def COMMAND_CHAR_UUID : String := "ab529201-5310-483a-b4d3-7f1eaa8134a0"

/-- `const.py`: `INIT_CHAR_UUID`. -/
def INIT_CHAR_UUID : String := "ab529101-5310-483a-b4d3-7f1eaa8134a0"

/-- `const.py`: `INIT_PAYLOAD = bytes([0x88, 0xFA])`. -/
def INIT_PAYLOAD : List Nat := [0x88, 0xFA]

/-- `const.py`: the command frame header byte (source constant CMD_PRE-FIX,
written here as one word to keep the identifier plain), value `0xF1`. -/
def CMD_HEADER : Nat := 0xF1

/-- `const.py`: `DEFAULT_RETRY_COUNT = 3`. -/
def DEFAULT_RETRY_COUNT : Int := 3

/-- `const.py`: `COMMAND_DELAY = 0.3` seconds, in milliseconds. -/
def COMMAND_DELAY_MS : Nat := 300

/-- `coordinator.py` line 57: `await asyncio.sleep(1.0)`, in milliseconds. -/
def RETRY_COOLDOWN_MS : Nat := 1000

/-- `levolor_ble.py` line 218: `await asyncio.sleep(0.5)`, in milliseconds. -/
def CLIENT_SETTLE_MS : Nat := 500

/-- The command codec (`coordinator.py` line 90 and `levolor_ble.py` line
208): `bytes([CMD_PRE FIX, action, channel])` builds the 3-byte frame. -/
def encode (a : Action) (channel : Nat) : List Nat :=
  [CMD_HEADER, a.code, channel]

/-- A BLE device as seen through the adapter: an address and an optional
advertised name (`discovery.name` may be `None` in Python). -/
structure BleDevice where
  address : String
  name : Option String
deriving DecidableEq, Repr

/-- Python `in` on strings: `pat` occurs as a contiguous substring. -/
def listInfixOf (pat : List Char) : List Char → Bool
  | [] => pat.isEmpty
  | c :: rest => pat.isPrefixOf (c :: rest) || listInfixOf pat rest

/-- `LEVOLOR_DEVICE_NAME in discovery.name` (Python substring test). -/
def strContains (s pat : String) : Bool :=
  listInfixOf pat.toList s.toList

/-- The filter of `_find_device_by_name`:
`if discovery.name and LEVOLOR_DEVICE_NAME in discovery.name`. -/
def nameMatches (d : BleDevice) : Bool :=
  match d.name with
  | some n => strContains n LEVOLOR_DEVICE_NAME
  | none => false

/-- One recorded adapter call. A write carries the characteristic UUID, the
payload bytes, and the `response=` flag when the call passes one
(`none` models the bleak default used by the init write). -/
inductive Event where
  | resolveByAddress (addr : String)
  | discoverScan
  | connect (addr : String)
  | writeChar (uuid : String) (payload : List Nat) (ack : Option Bool)
  | sleep (ms : Nat)
  | disconnect (addr : String)
deriving DecidableEq, Repr

/-- Exceptions that can escape one `_send_command_once` call. -/
inductive Exc where
  /-- `BleakError` or `TimeoutError`: caught by the retry loop of
  `async_send_command` (line 47). -/
  | bleak
  /-- `HomeAssistantError` raised at line 79 when no device resolves.
  NOT in the `except (BleakError, TimeoutError)` tuple. -/
  | notFound
  /-- `ValueError` from `bytes([...])` when the channel byte is over 255. -/
  | valueError
deriving DecidableEq, Repr

/-- The adapter environment one attempt runs against: what
`async_ble_device_from_address` returns for a given current address, what
`async_discovered_service_info` yields, and which adapter calls raise. -/
structure AttemptEnv where
  byAddress : String → Option BleDevice
  discovered : List BleDevice
  connectFails : Bool
  initWriteFails : Bool
  ackWriteFails : Bool
  noackWriteFails : Bool

deriving instance DecidableEq for Except

/-- Result of one `_send_command_once` call: the outcome (`.ok b` for a
normal return of `b`, `.error e` for a raised exception), the value of
`self.address` afterwards, and the adapter calls made. -/
structure OnceResult where
  outcome : Except Exc Bool
  address : String
  trace : List Event
deriving DecidableEq, Repr

/-- `_find_device_by_name` (coordinator.py lines 107-120): first discovery
whose name contains the marker; the caller stores its address. -/
def findDeviceByName (discovered : List BleDevice) : Option BleDevice :=
  discovered.find? nameMatches

/-- The connected part of `_send_command_once` (lines 84-105): init write,
frame build, acknowledged write with unacknowledged fallback, settle sleep.
`addr` is `self.address` after resolution; `d` the resolved device.
`BleakClient.__aexit__` disconnects on every exit path once entered. -/
def sendOnceConnected (env : AttemptEnv) (a : Action) (channel : Nat)
    (addr : String) (d : BleDevice) (t : List Event) : OnceResult :=
  let t := t ++ [Event.connect d.address]
  if env.connectFails then
    ⟨.error .bleak, addr, t⟩
  else
    let t := t ++ [Event.writeChar INIT_CHAR_UUID INIT_PAYLOAD none]
    if env.initWriteFails then
      ⟨.error .bleak, addr, t ++ [Event.disconnect d.address]⟩
    else if channel > 255 then
      ⟨.error .valueError, addr, t ++ [Event.disconnect d.address]⟩
    else
      let frame := encode a channel
      let t := t ++ [Event.writeChar COMMAND_CHAR_UUID frame (some true)]
      if env.ackWriteFails then
        let t := t ++ [Event.writeChar COMMAND_CHAR_UUID frame (some false)]
        if env.noackWriteFails then
          ⟨.error .bleak, addr, t ++ [Event.disconnect d.address]⟩
        else
          ⟨.ok true, addr,
            t ++ [Event.sleep COMMAND_DELAY_MS, Event.disconnect d.address]⟩
      else
        ⟨.ok true, addr,
          t ++ [Event.sleep COMMAND_DELAY_MS, Event.disconnect d.address]⟩

/-- `_send_command_once` (coordinator.py lines 67-105): resolve by address,
fall back to name discovery (updating `self.address`), raise when neither
resolves, then deliver. -/
def sendOnce (env : AttemptEnv) (a : Action) (channel : Nat)
    (addr : String) : OnceResult :=
  let t := [Event.resolveByAddress addr]
  match env.byAddress addr with
  | some d => sendOnceConnected env a channel addr d t
  | none =>
    let t := t ++ [Event.discoverScan]
    match findDeviceByName env.discovered with
    | some d => sendOnceConnected env a channel d.address d t
    | none => ⟨.error .notFound, addr, t⟩

/-- Result of `async_send_command`: outcome, final `self.address`, trace. -/
structure SendResult where
  outcome : Except Exc Bool
  address : String
  trace : List Event
deriving DecidableEq, Repr

/-- The retry loop body of `async_send_command` (lines 42-57), as recursion
over the remaining values of `range(retry_count)`. Only `.bleak`
(`BleakError`/`TimeoutError`) is caught; the cooldown runs when
`attempt < retry_count - 1`; a `False` return falls through without
cooldown; any other exception propagates. -/
def runAttempts (envs : Nat → AttemptEnv) (a : Action) (channel : Nat)
    (retryCount : Int) :
    List Nat → String → List Event → SendResult
  | [], addr, t => ⟨.ok false, addr, t⟩
  | attempt :: rest, addr, t =>
    let r := sendOnce (envs attempt) a channel addr
    let t := t ++ r.trace
    match r.outcome with
    | .ok true => ⟨.ok true, r.address, t⟩
    | .ok false => runAttempts envs a channel retryCount rest r.address t
    | .error .bleak =>
      let t :=
        if (attempt : Int) < retryCount - 1 then t ++ [Event.sleep RETRY_COOLDOWN_MS]
        else t
      runAttempts envs a channel retryCount rest r.address t
    | .error e => ⟨.error e, r.address, t⟩

/-- `async_send_command` (coordinator.py lines 37-65). `envs i` is the
adapter environment attempt `i` runs against; `addr` the coordinator
address. `range(retry_count)` is empty when the count is nonpositive. -/
def asyncSendCommand (envs : Nat → AttemptEnv) (a : Action) (channel : Nat)
    (retryCount : Int) (addr : String) : SendResult :=
  runAttempts envs a channel retryCount (List.range retryCount.toNat) addr []

/-- `LevolorRemote.send_command` (levolor_ble.py lines 188-223): requires a
live connection, validates the channel, then writes with acknowledged →
unacknowledged fallback; every failure returns `False`, never raises. -/
def clientSendCommand (connected : Bool) (ackFails noackFails : Bool)
    (a : Action) (channel : Int) : Bool × List Event :=
  if !connected then
    (false, [])
  else if channel < 1 || channel > 6 then
    (false, [])
  else
    let frame := encode a channel.toNat
    let t := [Event.writeChar COMMAND_CHAR_UUID frame (some true)]
    if ackFails then
      let t := t ++ [Event.writeChar COMMAND_CHAR_UUID frame (some false)]
      if noackFails then (false, t)
      else (true, t ++ [Event.sleep CLIENT_SETTLE_MS])
    else (true, t ++ [Event.sleep CLIENT_SETTLE_MS])

/-- `async_set_cover_position` (cover.py lines 157-164): dispatch on the
requested position, defaulting to 50; at least 50 opens, otherwise closes.
No other branch exists. -/
def setCoverPositionAction (position : Option Int) : Action :=
  if position.getD 50 ≥ 50 then Action.OPEN else Action.CLOSE

/-- The full command issued by `async_set_cover_position` through
`async_open_cover` / `async_close_cover`, which call
`async_send_command(action, channel)` with the default retry count. -/
def setCoverPosition (envs : Nat → AttemptEnv) (position : Option Int)
    (channel : Nat) (addr : String) : SendResult :=
  asyncSendCommand envs (setCoverPositionAction position) channel
    DEFAULT_RETRY_COUNT addr

/-- A concrete device for concrete instantiations. -/
def demoDevice : BleDevice := ⟨"AA:BB:CC:DD:EE:FF", some "Levolor Remote"⟩

/-- A device discovered at a fresh address after rotation. -/
def rotatedDevice : BleDevice := ⟨"11:22:33:44:55:66", some "Levolor Remote"⟩

/-- Adapter on which every call succeeds and the address resolves. -/
def cleanEnvW : AttemptEnv := ⟨fun _ => some demoDevice, [], false, false, false, false⟩

/-- Adapter on which the address resolves but every connect raises. -/
def connectFailEnvW : AttemptEnv := ⟨fun _ => some demoDevice, [], true, false, false, false⟩

/-- Adapter on which neither the address nor discovery yields a device. -/
def notFoundEnvW : AttemptEnv := ⟨fun _ => none, [], false, false, false, false⟩

/-- Adapter on which the acknowledged command write raises but the
unacknowledged one succeeds. -/
def ackFailEnvW : AttemptEnv := ⟨fun _ => some demoDevice, [], false, false, true, false⟩

/-- Adapter for the address-rotation scenario: the stored address no longer
resolves, discovery lists an unrelated device and then the rotated remote,
and this attempt then fails at connect. -/
def staleEnvW : AttemptEnv :=
  ⟨fun _ => none, [⟨"00:00:00:00:00:00", some "Other"⟩, rotatedDevice],
    true, false, false, false⟩

/-- Adapter that resolves only the rotated address, then succeeds. -/
def rotatedEnvW : AttemptEnv :=
  ⟨fun s => if s = rotatedDevice.address then some rotatedDevice else none,
    [], false, false, false, false⟩

/-- The adapter-call trace of one fully successful attempt that resolved by
address: resolve → connect → arm → acknowledged command write → settle →
disconnect. -/
def cleanTrace (addr daddr : String) (a : Action) (c : Nat) : List Event :=
  [Event.resolveByAddress addr, Event.connect daddr,
   Event.writeChar INIT_CHAR_UUID INIT_PAYLOAD none,
   Event.writeChar COMMAND_CHAR_UUID (encode a c) (some true),
   Event.sleep COMMAND_DELAY_MS, Event.disconnect daddr]

/-- Number of occurrences of one adapter call in a trace. -/
def countE (e : Event) : List Event → Nat
  | [] => 0
  | x :: rest => (if x = e then 1 else 0) + countE e rest

/-- The trace accumulated by the retry loop when every attempt resolves by
address and fails at connect: per remaining attempt index, a resolve and a
connect call, plus the cooldown when more attempts remain. -/
def failTail (N : Int) (addr daddr : String) : List Nat → List Event
  | [] => []
  | attempt :: rest =>
    [Event.resolveByAddress addr, Event.connect daddr]
      ++ (if (attempt : Int) < N - 1 then [Event.sleep RETRY_COOLDOWN_MS] else [])
      ++ failTail N addr daddr rest

theorem countE_append (e : Event) (l₁ l₂ : List Event) :
    countE e (l₁ ++ l₂) = countE e l₁ + countE e l₂ := by
  induction l₁ with
  | nil => simp [countE]
  | cons x rest ih => simp [countE, ih]; omega

theorem sendOnce_clean (env : AttemptEnv) (a : Action) (c : Nat)
    (addr : String) (d : BleDevice) (hres : env.byAddress addr = some d)
    (hcon : env.connectFails = false) (hinit : env.initWriteFails = false)
    (hack : env.ackWriteFails = false) (hc : c ≤ 255) :
    sendOnce env a c addr = ⟨.ok true, addr, cleanTrace addr d.address a c⟩ := by
  simp [sendOnce, hres, sendOnceConnected, hcon, hinit, hack, cleanTrace,
    Nat.not_lt.mpr hc]

theorem sendOnce_connectFail (env : AttemptEnv) (a : Action) (c : Nat)
    (addr : String) (d : BleDevice) (hres : env.byAddress addr = some d)
    (hcf : env.connectFails = true) :
    sendOnce env a c addr =
      ⟨.error .bleak, addr,
        [Event.resolveByAddress addr, Event.connect d.address]⟩ := by
  simp [sendOnce, hres, sendOnceConnected, hcf]

theorem sendOnce_notFound (env : AttemptEnv) (a : Action) (c : Nat)
    (addr : String) (hres : env.byAddress addr = none)
    (hfind : findDeviceByName env.discovered = none) :
    sendOnce env a c addr =
      ⟨.error .notFound, addr,
        [Event.resolveByAddress addr, Event.discoverScan]⟩ := by
  simp [sendOnce, hres, hfind]

theorem runAttempts_connectFail (env : AttemptEnv) (a : Action) (c : Nat)
    (N : Int) (addr : String) (d : BleDevice)
    (hres : env.byAddress addr = some d) (hcf : env.connectFails = true) :
    ∀ (L : List Nat) (t : List Event),
      runAttempts (fun _ => env) a c N L addr t =
        ⟨.ok false, addr, t ++ failTail N addr d.address L⟩
  | [], t => by simp [runAttempts, failTail]
  | attempt :: rest, t => by
    rw [runAttempts]
    simp only [sendOnce_connectFail env a c addr d hres hcf]
    by_cases hlt : (attempt : Int) < N - 1 <;>
      simp [hlt, failTail,
        runAttempts_connectFail env a c N addr d hres hcf rest]

theorem countE_failTail_connect (N : Int) (addr daddr : String) :
    ∀ L : List Nat,
      countE (Event.connect daddr) (failTail N addr daddr L) = L.length
  | [] => by simp [failTail, countE]
  | x :: rest => by
    by_cases h : (x : Int) < N - 1 <;>
      simp [failTail, h, countE_append, countE,
        countE_failTail_connect N addr daddr rest] <;> omega

theorem countE_failTail_resolve (N : Int) (addr daddr : String) :
    ∀ L : List Nat,
      countE (Event.resolveByAddress addr) (failTail N addr daddr L) = L.length
  | [] => by simp [failTail, countE]
  | x :: rest => by
    by_cases h : (x : Int) < N - 1 <;>
      simp [failTail, h, countE_append, countE,
        countE_failTail_resolve N addr daddr rest] <;> omega

theorem countE_failTail_sleep (N : Nat) (addr daddr : String) :
    ∀ (k s : Nat), s + k = N →
      countE (Event.sleep RETRY_COOLDOWN_MS)
        (failTail (N : Int) addr daddr (List.range' s k)) = k - 1
  | 0, s, _ => by simp [failTail, countE]
  | 1, s, h => by
    have hns : ¬ ((s : Int) < (N : Int) - 1) := by omega
    simp [List.range'_one, failTail, hns, countE]
  | (k + 2), s, h => by
    have hs : ((s : Int) < (N : Int) - 1) := by omega
    have ih := countE_failTail_sleep N addr daddr (k + 1) (s + 1) (by omega)
    rw [List.range'_succ]
    generalize hL : List.range' (s + 1) (k + 1) = L
    rw [hL] at ih
    simp only [failTail, if_pos hs, countE_append, countE, List.append_eq,
      List.nil_append]
    rw [ih]
    simp
    omega

theorem runAttempts_headSuccess (envs : Nat → AttemptEnv) (a : Action)
    (c : Nat) (N : Int) (attempt : Nat) (addr : String) (d : BleDevice)
    (rest : List Nat) (t : List Event)
    (hres : (envs attempt).byAddress addr = some d)
    (hcon : (envs attempt).connectFails = false)
    (hinit : (envs attempt).initWriteFails = false)
    (hack : (envs attempt).ackWriteFails = false) (hc : c ≤ 255) :
    runAttempts envs a c N (attempt :: rest) addr t =
      ⟨.ok true, addr, t ++ cleanTrace addr d.address a c⟩ := by
  rw [runAttempts]
  simp only [sendOnce_clean (envs attempt) a c addr d hres hcon hinit hack hc]

theorem sendOnce_discoveryBleak (env : AttemptEnv) (a : Action) (c : Nat)
    (addr : String) (d : BleDevice) (hres : env.byAddress addr = none)
    (hfind : findDeviceByName env.discovered = some d)
    (hcf : env.connectFails = true) :
    sendOnce env a c addr =
      ⟨.error .bleak, d.address,
        [Event.resolveByAddress addr, Event.discoverScan,
         Event.connect d.address]⟩ := by
  simp [sendOnce, hres, hfind, sendOnceConnected, hcf]

theorem runAttempts_cons_bleak (envs : Nat → AttemptEnv) (a : Action)
    (c : Nat) (N : Int) (attempt : Nat) (rest : List Nat)
    (addr addr2 : String) (t tr : List Event)
    (hsend : sendOnce (envs attempt) a c addr = ⟨.error .bleak, addr2, tr⟩)
    (hlt : (attempt : Int) < N - 1) :
    runAttempts envs a c N (attempt :: rest) addr t =
      runAttempts envs a c N rest addr2
        (t ++ tr ++ [Event.sleep RETRY_COOLDOWN_MS]) := by
  rw [runAttempts]
  simp only [hsend]
  simp [hlt, List.append_assoc]

theorem runAttempts_cons_notFound (envs : Nat → AttemptEnv) (a : Action)
    (c : Nat) (N : Int) (attempt : Nat) (rest : List Nat) (addr : String)
    (t : List Event) (hres : (envs attempt).byAddress addr = none)
    (hfind : findDeviceByName (envs attempt).discovered = none) :
    runAttempts envs a c N (attempt :: rest) addr t =
      ⟨.error .notFound, addr,
        t ++ [Event.resolveByAddress addr, Event.discoverScan]⟩ := by
  rw [runAttempts]
  simp only [sendOnce_notFound (envs attempt) a c addr hres hfind]

theorem asyncSendCommand_clean (envs : Nat → AttemptEnv) (a : Action)
    (c : Nat) (N : Nat) (addr : String) (d : BleDevice) (hN : 0 < N)
    (hres : (envs 0).byAddress addr = some d)
    (hcon : (envs 0).connectFails = false)
    (hinit : (envs 0).initWriteFails = false)
    (hack : (envs 0).ackWriteFails = false) (hc : c ≤ 255) :
    asyncSendCommand envs a c (N : Int) addr =
      ⟨.ok true, addr, cleanTrace addr d.address a c⟩ := by
  obtain ⟨k, rfl⟩ : ∃ k, N = k + 1 := ⟨N - 1, by omega⟩
  unfold asyncSendCommand
  rw [Int.toNat_natCast, List.range_eq_range', List.range'_succ]
  exact runAttempts_headSuccess envs a c _ 0 addr d _ []
    hres hcon hinit hack hc

/-- C1: for every valid action code and every channel in 1..6, encoding a
command is deterministic and produces exactly the 3-byte frame
[0xF1, action, channel]; every byte fits in 0..255, so the frame
construction (`bytes([...])`) cannot fail for valid input. -/
theorem C1_encode_frame (a : Action) (c : Nat) (h1 : 1 ≤ c) (h6 : c ≤ 6) :
    encode a c = [0xF1, a.code, c] ∧ (encode a c).length = 3 ∧
      ∀ b ∈ encode a c, b < 256 := by
  refine ⟨rfl, rfl, ?_⟩
  intro b hb
  simp [encode, CMD_HEADER] at hb
  rcases hb with rfl | rfl | rfl
  · norm_num
  · cases a <;> simp [Action.code]
  · omega

/-- Witness for C1 at action OPEN, channel 1. -/
theorem C1_encode_frame_witness :
    encode Action.OPEN 1 = [0xF1, Action.OPEN.code, 1] ∧
      (encode Action.OPEN 1).length = 3 ∧ ∀ b ∈ encode Action.OPEN 1, b < 256 :=
  C1_encode_frame Action.OPEN 1 (by decide) (by decide)

/-- C4: against an adapter that resolves the address but fails every connect,
`async_send_command` with retry count N makes exactly N resolve and N connect
attempts, waits the fixed 1-second cooldown after every failed attempt except
the last, and returns failure; and whenever the first attempt succeeds it
returns success immediately with exactly that one attempt's adapter calls. -/
theorem C4_retry_policy (env : AttemptEnv) (envs : Nat → AttemptEnv)
    (a : Action) (c : Nat) (N : Nat) (addr : String) (d : BleDevice)
    (hN : 0 < N) (hres : env.byAddress addr = some d)
    (hcf : env.connectFails = true)
    (hres0 : (envs 0).byAddress addr = some d)
    (hcon0 : (envs 0).connectFails = false)
    (hinit0 : (envs 0).initWriteFails = false)
    (hack0 : (envs 0).ackWriteFails = false) (hc : c ≤ 255) :
    ((asyncSendCommand (fun _ => env) a c (N : Int) addr).outcome = .ok false ∧
     countE (Event.resolveByAddress addr)
       (asyncSendCommand (fun _ => env) a c (N : Int) addr).trace = N ∧
     countE (Event.connect d.address)
       (asyncSendCommand (fun _ => env) a c (N : Int) addr).trace = N ∧
     countE (Event.sleep RETRY_COOLDOWN_MS)
       (asyncSendCommand (fun _ => env) a c (N : Int) addr).trace = N - 1) ∧
    asyncSendCommand envs a c (N : Int) addr =
      ⟨.ok true, addr, cleanTrace addr d.address a c⟩ := by
  have hasync : asyncSendCommand (fun _ => env) a c (N : Int) addr =
      ⟨.ok false, addr, failTail (N : Int) addr d.address (List.range N)⟩ := by
    unfold asyncSendCommand
    rw [Int.toNat_natCast,
      runAttempts_connectFail env a c (N : Int) addr d hres hcf (List.range N) []]
    simp
  refine ⟨⟨?_, ?_, ?_, ?_⟩,
    asyncSendCommand_clean envs a c N addr d hN hres0 hcon0 hinit0 hack0 hc⟩
  · rw [hasync]
  · rw [hasync]
    simpa using countE_failTail_resolve (N : Int) addr d.address (List.range N)
  · rw [hasync]
    simpa using countE_failTail_connect (N : Int) addr d.address (List.range N)
  · rw [hasync]
    show countE (Event.sleep RETRY_COOLDOWN_MS)
      (failTail (N : Int) addr d.address (List.range N)) = N - 1
    rw [List.range_eq_range']
    exact countE_failTail_sleep N addr d.address N 0 (by omega)

/-- Witness for C4: the all-connect-failing adapter at retry count 3 and the
fully succeeding adapter, action OPEN, channel 1. -/
theorem C4_retry_policy_witness :
    ((asyncSendCommand (fun _ => connectFailEnvW) Action.OPEN 1 ((3 : Nat) : Int)
        "AA:BB:CC:DD:EE:FF").outcome = .ok false ∧
     countE (Event.resolveByAddress "AA:BB:CC:DD:EE:FF")
       (asyncSendCommand (fun _ => connectFailEnvW) Action.OPEN 1 ((3 : Nat) : Int)
         "AA:BB:CC:DD:EE:FF").trace = 3 ∧
     countE (Event.connect demoDevice.address)
       (asyncSendCommand (fun _ => connectFailEnvW) Action.OPEN 1 ((3 : Nat) : Int)
         "AA:BB:CC:DD:EE:FF").trace = 3 ∧
     countE (Event.sleep RETRY_COOLDOWN_MS)
       (asyncSendCommand (fun _ => connectFailEnvW) Action.OPEN 1 ((3 : Nat) : Int)
         "AA:BB:CC:DD:EE:FF").trace = 3 - 1) ∧
    asyncSendCommand (fun _ => cleanEnvW) Action.OPEN 1 ((3 : Nat) : Int)
        "AA:BB:CC:DD:EE:FF" =
      ⟨.ok true, "AA:BB:CC:DD:EE:FF",
        cleanTrace "AA:BB:CC:DD:EE:FF" demoDevice.address Action.OPEN 1⟩ :=
  C4_retry_policy connectFailEnvW (fun _ => cleanEnvW) Action.OPEN 1 3
    "AA:BB:CC:DD:EE:FF" demoDevice (by decide) rfl rfl rfl rfl rfl rfl
    (by decide)

/-- C9: a call with nonpositive retry count returns False immediately: the
loop body of `async_send_command` never executes and no adapter call is
made. -/
theorem C9_nonpositive_retry (envs : Nat → AttemptEnv) (a : Action) (c : Nat)
    (N : Int) (addr : String) (hN : N ≤ 0) :
    asyncSendCommand envs a c N addr = ⟨.ok false, addr, []⟩ := by
  unfold asyncSendCommand
  rw [Int.toNat_of_nonpos hN]
  rfl

/-- Witness for C9 at retry count 0 on the fully succeeding adapter. -/
theorem C9_nonpositive_retry_witness :
    asyncSendCommand (fun _ => cleanEnvW) Action.OPEN 1 0 "AA:BB:CC:DD:EE:FF" =
      ⟨.ok false, "AA:BB:CC:DD:EE:FF", []⟩ :=
  C9_nonpositive_retry (fun _ => cleanEnvW) Action.OPEN 1 0 "AA:BB:CC:DD:EE:FF"
    (by decide)

/-- C10: `async_set_cover_position` issues the full OPEN command sequence
when the requested position is at least 50 (also when no position is
supplied, the default being 50), and the full CLOSE command sequence
otherwise; no other command can be issued by it. -/
theorem C10_set_position_dispatch (p : Option Int) (env : AttemptEnv)
    (c : Nat) (addr : String) (d : BleDevice)
    (hres : env.byAddress addr = some d) (hcon : env.connectFails = false)
    (hinit : env.initWriteFails = false) (hack : env.ackWriteFails = false)
    (hc : c ≤ 255) :
    (setCoverPositionAction p = Action.OPEN ∨
      setCoverPositionAction p = Action.CLOSE) ∧
    (setCoverPositionAction p = Action.OPEN ↔ 50 ≤ p.getD 50) ∧
    setCoverPositionAction none = Action.OPEN ∧
    setCoverPosition (fun _ => env) p c addr =
      ⟨.ok true, addr, cleanTrace addr d.address (setCoverPositionAction p) c⟩ := by
  refine ⟨?_, ?_, by decide, ?_⟩
  · unfold setCoverPositionAction
    split
    · exact Or.inl rfl
    · exact Or.inr rfl
  · by_cases h : 50 ≤ p.getD 50 <;> simp [setCoverPositionAction, ge_iff_le, h]
  · show asyncSendCommand (fun _ => env) (setCoverPositionAction p) c
      DEFAULT_RETRY_COUNT addr = _
    exact asyncSendCommand_clean (fun _ => env) (setCoverPositionAction p) c 3
      addr d (by omega) hres hcon hinit hack hc

/-- Witness for C10 at requested position 30 (closes) on the fully
succeeding adapter, channel 2. -/
theorem C10_set_position_dispatch_witness :
    (setCoverPositionAction (some 30) = Action.OPEN ∨
      setCoverPositionAction (some 30) = Action.CLOSE) ∧
    (setCoverPositionAction (some 30) = Action.OPEN ↔
      50 ≤ (some (30 : Int)).getD 50) ∧
    setCoverPositionAction none = Action.OPEN ∧
    setCoverPosition (fun _ => cleanEnvW) (some 30) 2 "AA:BB:CC:DD:EE:FF" =
      ⟨.ok true, "AA:BB:CC:DD:EE:FF",
        cleanTrace "AA:BB:CC:DD:EE:FF" demoDevice.address
          (setCoverPositionAction (some 30)) 2⟩ :=
  C10_set_position_dispatch (some 30) cleanEnvW 2 "AA:BB:CC:DD:EE:FF"
    demoDevice rfl rfl rfl rfl (by decide)

/-- C2 counterexample: channel 7 lies outside 1..6, yet the coordinator's
`async_send_command` makes the full set of adapter calls — resolve, connect,
arm, command write with channel byte 7 — and reports success; no
InvalidChannel rejection happens before adapter calls. -/
theorem C2_counterexample :
    asyncSendCommand (fun _ => cleanEnvW) Action.OPEN 7 3
        "AA:BB:CC:DD:EE:FF" =
      ⟨.ok true, "AA:BB:CC:DD:EE:FF",
        cleanTrace "AA:BB:CC:DD:EE:FF" "AA:BB:CC:DD:EE:FF" Action.OPEN 7⟩ ∧
    countE (Event.connect "AA:BB:CC:DD:EE:FF")
      (asyncSendCommand (fun _ => cleanEnvW) Action.OPEN 7 3
        "AA:BB:CC:DD:EE:FF").trace = 1 := by
  decide

/-- C2 amended: only the standalone client validates the channel — for a
channel outside 1..6 `LevolorRemote.send_command` returns False before any
write call and without retrying; the coordinator performs no channel
validation and carries out the full delivery (here shown for any channel
byte up to 255, with the out-of-range byte in the frame). -/
theorem C2_channel_validation (conn af nf : Bool) (a : Action) (ch : Int)
    (hch : ch < 1 ∨ 6 < ch) (env : AttemptEnv) (c : Nat) (addr : String)
    (d : BleDevice) (hres : env.byAddress addr = some d)
    (hcon : env.connectFails = false) (hinit : env.initWriteFails = false)
    (hack : env.ackWriteFails = false) (hc : c ≤ 255) :
    clientSendCommand conn af nf a ch = (false, []) ∧
    asyncSendCommand (fun _ => env) a c 3 addr =
      ⟨.ok true, addr, cleanTrace addr d.address a c⟩ := by
  constructor
  · cases conn <;> rcases hch with h | h <;>
      simp [clientSendCommand, h]
  · exact asyncSendCommand_clean (fun _ => env) a c 3 addr d (by omega)
      hres hcon hinit hack hc

/-- Witness for C2 amended: channel 7 — rejected by the client, delivered
with channel byte 7 by the coordinator. -/
theorem C2_channel_validation_witness :
    clientSendCommand true false false Action.OPEN 7 = (false, []) ∧
    asyncSendCommand (fun _ => cleanEnvW) Action.OPEN 6 3 "AA:BB:CC:DD:EE:FF" =
      ⟨.ok true, "AA:BB:CC:DD:EE:FF",
        cleanTrace "AA:BB:CC:DD:EE:FF" demoDevice.address Action.OPEN 6⟩ :=
  C2_channel_validation true false false Action.OPEN 7 (by decide) cleanEnvW 6
    "AA:BB:CC:DD:EE:FF" demoDevice rfl rfl rfl rfl (by decide)

/-- C3 counterexample: when neither the address lookup nor name discovery
resolves a device, `_send_command_once` raises HomeAssistantError; that type
is not in the `except (BleakError, TimeoutError)` tuple, so the exception
crosses the public boundary on the first attempt — the caller gets no
boolean, and no retry happens. -/
theorem C3_counterexample :
    asyncSendCommand (fun _ => notFoundEnvW) Action.OPEN 1 3
        "AA:BB:CC:DD:EE:FF" =
      ⟨.error .notFound, "AA:BB:CC:DD:EE:FF",
        [Event.resolveByAddress "AA:BB:CC:DD:EE:FF", Event.discoverScan]⟩ := by
  decide

/-- C3 amended: BleakError/TimeoutError attempt failures are caught at the
attempt boundary and retried with a fresh resolution on every iteration,
the caller receiving a boolean; but a device-resolution failure raises
HomeAssistantError, which propagates to the caller on the attempt where it
occurs, aborting the retry loop with no boolean result. -/
theorem C3_exception_boundary (env envU : AttemptEnv) (a : Action) (c : Nat)
    (N : Nat) (addr : String) (d : BleDevice) (hN : 0 < N)
    (hres : env.byAddress addr = some d) (hcf : env.connectFails = true)
    (hresU : envU.byAddress addr = none)
    (hfindU : findDeviceByName envU.discovered = none) :
    ((asyncSendCommand (fun _ => env) a c (N : Int) addr).outcome =
        .ok false ∧
     countE (Event.resolveByAddress addr)
       (asyncSendCommand (fun _ => env) a c (N : Int) addr).trace = N) ∧
    asyncSendCommand (fun _ => envU) a c (N : Int) addr =
      ⟨.error .notFound, addr,
        [Event.resolveByAddress addr, Event.discoverScan]⟩ := by
  have hasync : asyncSendCommand (fun _ => env) a c (N : Int) addr =
      ⟨.ok false, addr, failTail (N : Int) addr d.address (List.range N)⟩ := by
    unfold asyncSendCommand
    rw [Int.toNat_natCast,
      runAttempts_connectFail env a c (N : Int) addr d hres hcf
        (List.range N) []]
    simp
  refine ⟨⟨?_, ?_⟩, ?_⟩
  · rw [hasync]
  · rw [hasync]
    simpa using countE_failTail_resolve (N : Int) addr d.address (List.range N)
  · obtain ⟨k, rfl⟩ : ∃ k, N = k + 1 := ⟨N - 1, by omega⟩
    unfold asyncSendCommand
    rw [Int.toNat_natCast, List.range_eq_range', List.range'_succ]
    rw [runAttempts_cons_notFound (fun _ => envU) a c _ 0 _ addr []
      hresU hfindU]
    simp

/-- Witness for C3 amended: connect-failing adapter (boolean failure after 2
caught attempts) versus unresolvable adapter (raised not-found). -/
theorem C3_exception_boundary_witness :
    ((asyncSendCommand (fun _ => connectFailEnvW) Action.CLOSE 2
        ((2 : Nat) : Int) "AA:BB:CC:DD:EE:FF").outcome = .ok false ∧
     countE (Event.resolveByAddress "AA:BB:CC:DD:EE:FF")
       (asyncSendCommand (fun _ => connectFailEnvW) Action.CLOSE 2
         ((2 : Nat) : Int) "AA:BB:CC:DD:EE:FF").trace = 2) ∧
    asyncSendCommand (fun _ => notFoundEnvW) Action.CLOSE 2 ((2 : Nat) : Int)
        "AA:BB:CC:DD:EE:FF" =
      ⟨.error .notFound, "AA:BB:CC:DD:EE:FF",
        [Event.resolveByAddress "AA:BB:CC:DD:EE:FF", Event.discoverScan]⟩ :=
  C3_exception_boundary connectFailEnvW notFoundEnvW Action.CLOSE 2 2
    "AA:BB:CC:DD:EE:FF" demoDevice (by decide) rfl rfl rfl rfl

/-- C5: within one delivery attempt, a rejected acknowledged command write is
retried exactly once with the same frame in unacknowledged mode; if that
write succeeds the attempt returns success after exactly one acknowledged
try followed by one unacknowledged try, and if it also fails the attempt
terminates with the transport error. -/
theorem C5_write_fallback (env : AttemptEnv) (a : Action) (c : Nat)
    (addr : String) (d : BleDevice) (hres : env.byAddress addr = some d)
    (hcon : env.connectFails = false) (hinit : env.initWriteFails = false)
    (hack : env.ackWriteFails = true) (hc : c ≤ 255) :
    sendOnce env a c addr =
      if env.noackWriteFails then
        ⟨.error .bleak, addr,
          [Event.resolveByAddress addr, Event.connect d.address,
           Event.writeChar INIT_CHAR_UUID INIT_PAYLOAD none,
           Event.writeChar COMMAND_CHAR_UUID (encode a c) (some true),
           Event.writeChar COMMAND_CHAR_UUID (encode a c) (some false),
           Event.disconnect d.address]⟩
      else
        ⟨.ok true, addr,
          [Event.resolveByAddress addr, Event.connect d.address,
           Event.writeChar INIT_CHAR_UUID INIT_PAYLOAD none,
           Event.writeChar COMMAND_CHAR_UUID (encode a c) (some true),
           Event.writeChar COMMAND_CHAR_UUID (encode a c) (some false),
           Event.sleep COMMAND_DELAY_MS, Event.disconnect d.address]⟩ := by
  by_cases hno : env.noackWriteFails <;>
    simp [sendOnce, hres, sendOnceConnected, hcon, hinit, hack, hno,
      Nat.not_lt.mpr hc]

/-- Witness for C5: acknowledged write always rejected, unacknowledged write
succeeding, action STOP, channel 3. -/
theorem C5_write_fallback_witness :
    sendOnce ackFailEnvW Action.STOP 3 "AA:BB:CC:DD:EE:FF" =
      if ackFailEnvW.noackWriteFails then
        ⟨.error .bleak, "AA:BB:CC:DD:EE:FF",
          [Event.resolveByAddress "AA:BB:CC:DD:EE:FF",
           Event.connect demoDevice.address,
           Event.writeChar INIT_CHAR_UUID INIT_PAYLOAD none,
           Event.writeChar COMMAND_CHAR_UUID (encode Action.STOP 3) (some true),
           Event.writeChar COMMAND_CHAR_UUID (encode Action.STOP 3) (some false),
           Event.disconnect demoDevice.address]⟩
      else
        ⟨.ok true, "AA:BB:CC:DD:EE:FF",
          [Event.resolveByAddress "AA:BB:CC:DD:EE:FF",
           Event.connect demoDevice.address,
           Event.writeChar INIT_CHAR_UUID INIT_PAYLOAD none,
           Event.writeChar COMMAND_CHAR_UUID (encode Action.STOP 3) (some true),
           Event.writeChar COMMAND_CHAR_UUID (encode Action.STOP 3) (some false),
           Event.sleep COMMAND_DELAY_MS, Event.disconnect demoDevice.address]⟩ :=
  C5_write_fallback ackFailEnvW Action.STOP 3 "AA:BB:CC:DD:EE:FF" demoDevice
    rfl rfl rfl rfl (by decide)

/-- C6: within one delivery the adapter calls occur strictly in the order
resolve → connect → arm → command write → settle (fixed 300 ms between the
last write and the disconnect) → disconnect; and across retries attempt n
completes all its calls (plus the cooldown) before attempt n+1 begins. -/
theorem C6_step_ordering (env : AttemptEnv) (envs : Nat → AttemptEnv)
    (a : Action) (c : Nat) (N : Nat) (addr : String) (d : BleDevice)
    (hres : env.byAddress addr = some d) (hcon : env.connectFails = false)
    (hinit : env.initWriteFails = false) (hack : env.ackWriteFails = false)
    (hc : c ≤ 255) (hN : 2 ≤ N)
    (h0res : (envs 0).byAddress addr = some d)
    (h0cf : (envs 0).connectFails = true)
    (h1res : (envs 1).byAddress addr = some d)
    (h1con : (envs 1).connectFails = false)
    (h1init : (envs 1).initWriteFails = false)
    (h1ack : (envs 1).ackWriteFails = false) :
    sendOnce env a c addr =
      ⟨.ok true, addr,
        [Event.resolveByAddress addr, Event.connect d.address,
         Event.writeChar INIT_CHAR_UUID INIT_PAYLOAD none,
         Event.writeChar COMMAND_CHAR_UUID (encode a c) (some true),
         Event.sleep COMMAND_DELAY_MS, Event.disconnect d.address]⟩ ∧
    asyncSendCommand envs a c (N : Int) addr =
      ⟨.ok true, addr,
        [Event.resolveByAddress addr, Event.connect d.address,
         Event.sleep RETRY_COOLDOWN_MS] ++ cleanTrace addr d.address a c⟩ := by
  refine ⟨sendOnce_clean env a c addr d hres hcon hinit hack hc, ?_⟩
  obtain ⟨k, rfl⟩ : ∃ k, N = k + 2 := ⟨N - 2, by omega⟩
  unfold asyncSendCommand
  rw [Int.toNat_natCast, List.range_eq_range', List.range'_succ,
    List.range'_succ]
  rw [runAttempts_cons_bleak envs a c _ 0 _ addr addr []
    [Event.resolveByAddress addr, Event.connect d.address]
    (sendOnce_connectFail (envs 0) a c addr d h0res h0cf)
    (by push_cast; omega)]
  rw [runAttempts_headSuccess envs a c _ (0 + 1) addr d _ _
    h1res h1con h1init h1ack hc]
  simp

/-- Witness for C6: a fully clean attempt, and a two-attempt run whose first
attempt fails at connect. -/
theorem C6_step_ordering_witness :
    sendOnce cleanEnvW Action.OPEN 1 "AA:BB:CC:DD:EE:FF" =
      ⟨.ok true, "AA:BB:CC:DD:EE:FF",
        [Event.resolveByAddress "AA:BB:CC:DD:EE:FF",
         Event.connect demoDevice.address,
         Event.writeChar INIT_CHAR_UUID INIT_PAYLOAD none,
         Event.writeChar COMMAND_CHAR_UUID (encode Action.OPEN 1) (some true),
         Event.sleep COMMAND_DELAY_MS, Event.disconnect demoDevice.address]⟩ ∧
    asyncSendCommand
        (fun i => if i = 0 then connectFailEnvW else cleanEnvW) Action.OPEN 1
        ((2 : Nat) : Int) "AA:BB:CC:DD:EE:FF" =
      ⟨.ok true, "AA:BB:CC:DD:EE:FF",
        [Event.resolveByAddress "AA:BB:CC:DD:EE:FF",
         Event.connect demoDevice.address,
         Event.sleep RETRY_COOLDOWN_MS] ++
        cleanTrace "AA:BB:CC:DD:EE:FF" demoDevice.address Action.OPEN 1⟩ :=
  C6_step_ordering cleanEnvW
    (fun i => if i = 0 then connectFailEnvW else cleanEnvW) Action.OPEN 1 2
    "AA:BB:CC:DD:EE:FF" demoDevice rfl rfl rfl rfl (by decide) (by decide)
    rfl rfl rfl rfl rfl rfl

/-- C7: when the stored address fails to resolve but discovery yields a
device whose name contains the marker "Levolor", the coordinator stores the
newly discovered address in place and connects to that device; a subsequent
attempt resolves using the new address. -/
theorem C7_self_healing (env : AttemptEnv) (envs : Nat → AttemptEnv)
    (a : Action) (c : Nat) (addr : String) (d : BleDevice) (N : Nat)
    (hres : env.byAddress addr = none)
    (hfind : env.discovered.find? nameMatches = some d)
    (hcf : env.connectFails = true) (h0 : envs 0 = env)
    (h1res : (envs 1).byAddress d.address = some d)
    (h1con : (envs 1).connectFails = false)
    (h1init : (envs 1).initWriteFails = false)
    (h1ack : (envs 1).ackWriteFails = false)
    (hc : c ≤ 255) (hN : 2 ≤ N) :
    nameMatches d = true ∧
    (sendOnce env a c addr).address = d.address ∧
    asyncSendCommand envs a c (N : Int) addr =
      ⟨.ok true, d.address,
        [Event.resolveByAddress addr, Event.discoverScan,
         Event.connect d.address, Event.sleep RETRY_COOLDOWN_MS] ++
        cleanTrace d.address d.address a c⟩ := by
  have hfd : findDeviceByName env.discovered = some d := hfind
  refine ⟨List.find?_some hfind, ?_, ?_⟩
  · rw [sendOnce_discoveryBleak env a c addr d hres hfd hcf]
  · obtain ⟨k, rfl⟩ : ∃ k, N = k + 2 := ⟨N - 2, by omega⟩
    unfold asyncSendCommand
    rw [Int.toNat_natCast, List.range_eq_range', List.range'_succ,
      List.range'_succ]
    rw [runAttempts_cons_bleak envs a c _ 0 _ addr d.address []
      [Event.resolveByAddress addr, Event.discoverScan,
       Event.connect d.address]
      (by rw [h0]; exact sendOnce_discoveryBleak env a c addr d hres hfd hcf)
      (by push_cast; omega)]
    rw [runAttempts_headSuccess envs a c _ (0 + 1) d.address d _ _
      h1res h1con h1init h1ack hc]
    simp

/-- Witness for C7: stale address, discovery listing an unrelated device and
then the rotated remote; the second attempt succeeds at the new address. -/
theorem C7_self_healing_witness :
    nameMatches rotatedDevice = true ∧
    (sendOnce staleEnvW Action.OPEN 1 "AA:BB:CC:DD:EE:FF").address =
      rotatedDevice.address ∧
    asyncSendCommand (fun i => if i = 0 then staleEnvW else rotatedEnvW)
        Action.OPEN 1 ((2 : Nat) : Int) "AA:BB:CC:DD:EE:FF" =
      ⟨.ok true, rotatedDevice.address,
        [Event.resolveByAddress "AA:BB:CC:DD:EE:FF", Event.discoverScan,
         Event.connect rotatedDevice.address, Event.sleep RETRY_COOLDOWN_MS] ++
        cleanTrace rotatedDevice.address rotatedDevice.address Action.OPEN 1⟩ :=
  C7_self_healing staleEnvW (fun i => if i = 0 then staleEnvW else rotatedEnvW)
    Action.OPEN 1 "AA:BB:CC:DD:EE:FF" rotatedDevice 2 rfl (by decide) rfl rfl
    (by decide) rfl rfl rfl (by decide) (by decide)

end Levolor
